import Mathlib

set_option maxRecDepth 10000

/-!
Verification of the CDT (compression-dictionary-transport) performance
benchmark harness.  The embedding below follows the harness's main
test module: the structured result record, the console-line result
parser, the filesystem cache flush, the CDT validation gate, the
statistics engine, the session runner, and the iteration loop of the
benchmark orchestrator.

Numbers reported by the browser (durations, transfer sizes) are JS
numbers; the embedding idealises them as exact rationals (durations)
and integers (sizes).  Optional / nullable fields become `Option`.
A thrown fatal error becomes an explicit `FatalError` value carried
out of the loop.
-/

/-- The structured result emitted by the page script for one action
(interface `TestResult` in the source).  `status` is `"ok"` or
`"error"`; all network/cache descriptors are optional. -/
structure TestResult where
  action : String
  status : String
  message : Option String := none
  resourceType : Option String := none
  httpStatus : Option Int := none
  contentEncoding : Option String := none
  url : Option String := none
  transferSize : Option Int := none
  encodedBodySize : Option Int := none
  decodedBodySize : Option Int := none
  duration : Option ℚ := none
  downloadTime : Option ℚ := none
  deliveryType : Option String := none
  protocol : Option String := none
deriving DecidableEq

/-- One iteration's record of outcomes (interface `IterationResults`):
five outcome slots, each `null` until populated. -/
structure IterationResults where
  iteration : Nat
  init : Option TestResult
  loadBase : Option TestResult
  loadDiff : Option TestResult
  loadDiffCached : Option TestResult
  loadBaseCached : Option TestResult
deriving DecidableEq

/-- The sentinel prefixed to the result line on the page console. -/
def resultSentinel : String := "CDT_TEST_RESULT:"

/-- `parseTestResult` from the source: scan the console messages in
order; on the first line starting with the sentinel, decode the rest
of the line; a line whose payload fails to decode is skipped (the
failure is logged) and scanning continues; absence of any decodable
sentinel line yields `none`.  `JSON.parse` plus the cast to
`TestResult` is external to the module, so it is a parameter
`decode`; a failed parse (a thrown `SyntaxError`, caught by the
`catch`) is `decode _ = none`.  `msg.startsWith(p)` and
`msg.substring(p.length)` act on the message's character sequence. -/
def parseTestResult (decode : String → Option TestResult) :
    List String → Option TestResult
  | [] => none
  | msg :: rest =>
    if resultSentinel.data.isPrefixOf msg.data then
      match decode (String.mk (msg.data.drop resultSentinel.length)) with
      | some r => some r
      | none => parseTestResult decode rest
    else parseTestResult decode rest

/-- `flushFsCache` from the source: a single attempt to drop the OS
page cache; on failure it rethrows a fatal error, with no retry.  The
success of the external `execSync` call is the `ok` parameter. -/
inductive FatalError where
  | flushFailed
  | initFailed
  | loadBaseFailed
  | loadDiffFailed
  | cdtEncoding (enc : Option String)
  | cdtSize (baseSize diffSize : Int)
  | loadDiffCachedFailed
  | diffNotFromCache (dt : Option String)
  | loadBaseCachedFailed
  | baseNotFromCache (dt : Option String)
deriving DecidableEq

def flushFsCache (ok : Bool) : Except FatalError Unit :=
  if ok then .ok () else .error .flushFailed

/-- JS `x || 0` on a nullable number: `null`/`undefined` and `0` are
falsy and give `0`; any other number is itself. -/
def jsOrZero : Option Int → Int
  | none => 0
  | some n => if n = 0 then 0 else n

/-- `result?.status !== 'ok'` gate, as a pass predicate: a `null`
result has no status (optional chaining gives `undefined`), so it
never passes. -/
def statusOk : Option TestResult → Bool
  | some r => r.status == "ok"
  | none => false

/-- Outcome of the CDT validation gate, recording which check fired. -/
inductive GateResult where
  | pass
  | failEncoding (enc : Option String)
  | failSize (baseSize diffSize : Int)
deriving DecidableEq

/-- The ValidateCDT gate from the iteration body: the diff outcome's
content encoding must be `'dcb'` (checked first), then the base
transfer size must be at least twice the diff transfer size, with
absent sizes coerced to `0` by `|| 0`. -/
def validateCDT (baseRes diffRes : Option TestResult) : GateResult :=
  let baseSize := jsOrZero (baseRes.bind (·.transferSize))
  let diffSize := jsOrZero (diffRes.bind (·.transferSize))
  let diffEncoding := diffRes.bind (·.contentEncoding)
  if diffEncoding ≠ some "dcb" then .failEncoding diffEncoding
  else if baseSize < diffSize * 2 then .failSize baseSize diffSize
  else .pass

/-- The statistics record (interface `CacheTimingStats`).  The code
stores `stdDev = Math.sqrt(avgSquaredDiff)`; a real square root is
not rational, so the embedding keeps the radicand `stdDevSq` (the
population variance `avgSquaredDiff`) and the theorems speak about
`Real.sqrt s.stdDevSq`. -/
structure CacheTimingStats where
  resourceType : String
  samples : List ℚ
  mean : ℚ
  median : ℚ
  min : ℚ
  max : ℚ
  stdDevSq : ℚ
deriving DecidableEq

/-- `calculateStats` from the source.  An empty sample list yields the
all-zero record; otherwise the list is sorted ascending (`.sort((a, b)
=> a - b)`), and mean / median / min / max / population variance are
computed exactly as in the code (indexing via `getD`, in-range by the
non-emptiness guard). -/
def calculateStats (samples : List ℚ) (resourceType : String) :
    CacheTimingStats :=
  if samples.length = 0 then
    { resourceType := resourceType, samples := [], mean := 0, median := 0
      min := 0, max := 0, stdDevSq := 0 }
  else
    let sorted := samples.insertionSort (· ≤ ·)
    let sum := samples.foldl (· + ·) 0
    let mean := sum / (samples.length : ℚ)
    let median :=
      if sorted.length % 2 = 0 then
        (sorted.getD (sorted.length / 2 - 1) 0 + sorted.getD (sorted.length / 2) 0) / 2
      else sorted.getD (sorted.length / 2) 0
    let squaredDiffs := samples.map (fun x => (x - mean) ^ 2)
    let avgSquaredDiff := squaredDiffs.foldl (· + ·) 0 / (samples.length : ℚ)
    { resourceType := resourceType, samples := samples, mean := mean
      median := median, min := sorted.getD 0 0
      max := sorted.getD (sorted.length - 1) 0, stdDevSq := avgSquaredDiff }

/-! ### Session runner (`executeAction`)

`executeAction` launches a persistent context, opens a page, collects
console lines during navigation, parses them, and in a `finally`
block closes the page and the context, each close guarded by
`.catch(() => {})` and the whole block by a `try { } catch { }`.

The external world of one call is a `SessionScript`: where (if
anywhere) the body fails and which console lines were collected, plus
whether each close operation fails.  `close()` is an async API, so a
close failure is a rejected promise, intercepted by `.catch(() => {})`. -/

inductive SessionScript where
  | launchFail
  | newPageFail
  | gotoFail
  | ok (msgs : List String)
deriving DecidableEq

/-- A close operation: succeeds or rejects. -/
def closeOp (fails : Bool) : Except Unit Unit :=
  if fails then .error () else .ok ()

/-- `.catch(() => {})` on a close: the rejection is replaced by a
resolved value, so the combined operation never fails. -/
def catchSwallow : Except Unit Unit → Except Unit Unit :=
  fun _ => .ok ()

/-- The `finally` block: close the page if one was opened, then the
context if one was opened, each close wrapped in `catchSwallow`;
returns which closes were called and the block's own outcome. -/
def finallyBlock (pageOpened ctxOpened pageCloseFails ctxCloseFails : Bool) :
    Bool × Bool × Except Unit Unit :=
  match (if pageOpened then catchSwallow (closeOp pageCloseFails) else .ok ()) with
  | .error e => (pageOpened, false, .error e)
  | .ok _ =>
    match (if ctxOpened then catchSwallow (closeOp ctxCloseFails) else .ok ()) with
    | .error e => (pageOpened, ctxOpened, .error e)
    | .ok _ => (pageOpened, ctxOpened, .ok ())

/-- Observable trace of one `executeAction` call: the returned value
or the propagated error (named after the failing body step), whether
the page/context were opened and whether their closes were called. -/
structure ExecTrace where
  outcome : Except String (Option TestResult × List String)
  ctxOpened : Bool
  pageOpened : Bool
  ctxCloseCalled : Bool
  pageCloseCalled : Bool

/-- `executeAction` from the source, as a function of its session
script and close-failure flags.  The body runs up to the scripted
failure point (launch, `newPage`, `goto`/wait, or success with the
collected console lines parsed by `parseTestResult`); the `finally`
block then runs; per JS semantics the body's outcome stands unless
the `finally` block itself throws, which `finallyBlock` never does. -/
def executeAction (script : SessionScript)
    (pageCloseFails ctxCloseFails : Bool)
    (decode : String → Option TestResult) : ExecTrace :=
  let body : Except String (Option TestResult × List String) ×  Bool × Bool :=
    match script with
    | .launchFail => (.error "launchPersistentContext failed", false, false)
    | .newPageFail => (.error "newPage failed", true, false)
    | .gotoFail => (.error "goto/wait failed", true, true)
    | .ok msgs => (.ok (parseTestResult decode msgs, msgs), true, true)
  let ctxOpened := body.2.1
  let pageOpened := body.2.2
  let fin := finallyBlock pageOpened ctxOpened pageCloseFails ctxCloseFails
  let outcome :=
    match fin.2.2 with
    | .error _ => .error "finally threw"
    | .ok _ => body.1
  { outcome := outcome, ctxOpened := ctxOpened, pageOpened := pageOpened
    ctxCloseCalled := fin.2.1, pageCloseCalled := fin.1 }

/-! ### Iteration state machine (the orchestrator loop)

The test body `Run CDT performance test iterations` drives, per
iteration: clear cache + flush, `init`; flush, `load_base`; flush,
`load_diff`; the ValidateCDT gate; flush, `load_diff` (cached); flush,
`load_base` (cached); each step's gate throws a fatal error that
aborts the whole run.  The external world of one iteration is an
`IterEnv`: the success of each flush and the parsed result of each
`executeAction` call. -/

/-- Environment of one iteration: one flush outcome and one parsed
result per step, in step order. -/
structure IterEnv where
  flushInitOk : Bool
  initRes : Option TestResult
  flushBaseOk : Bool
  baseRes : Option TestResult
  flushDiffOk : Bool
  diffRes : Option TestResult
  flushDiffCachedOk : Bool
  diffCachedRes : Option TestResult
  flushBaseCachedOk : Bool
  baseCachedRes : Option TestResult
deriving DecidableEq

/-- Run-level accumulators: `allResults`, `baseCacheTimes`,
`diffCacheTimes` from the source. -/
structure RunState where
  allResults : List IterationResults
  baseCacheTimes : List ℚ
  diffCacheTimes : List ℚ
deriving DecidableEq

/-- Configured iteration count (`ITERATIONS` in the source). -/
def ITERATIONS : Nat := 2

/-- One iteration of the loop body.  Returns the run state as left
when the iteration finishes or aborts, and the fatal error if one was
thrown.  Mirrors the source order: each gate throws before any later
step runs; the diff cache sample is appended (only when the duration
is present) before step 5 runs; the iteration record is appended to
`allResults` only at the very end of a fully successful iteration. -/
def runIteration (i : Nat) (env : IterEnv) (st : RunState) :
    RunState × Option FatalError :=
  match flushFsCache env.flushInitOk with
  | .error e => (st, some e)
  | .ok _ =>
  if statusOk env.initRes = false then (st, some .initFailed) else
  match flushFsCache env.flushBaseOk with
  | .error e => (st, some e)
  | .ok _ =>
  if statusOk env.baseRes = false then (st, some .loadBaseFailed) else
  match flushFsCache env.flushDiffOk with
  | .error e => (st, some e)
  | .ok _ =>
  if statusOk env.diffRes = false then (st, some .loadDiffFailed) else
  match validateCDT env.baseRes env.diffRes with
  | .failEncoding enc => (st, some (.cdtEncoding enc))
  | .failSize b d => (st, some (.cdtSize b d))
  | .pass =>
  match flushFsCache env.flushDiffCachedOk with
  | .error e => (st, some e)
  | .ok _ =>
  if statusOk env.diffCachedRes = false then (st, some .loadDiffCachedFailed) else
  if env.diffCachedRes.bind (·.deliveryType) ≠ some "cache" then
    (st, some (.diffNotFromCache (env.diffCachedRes.bind (·.deliveryType))))
  else
  let st1 :=
    match env.diffCachedRes.bind (·.duration) with
    | some d => { st with diffCacheTimes := st.diffCacheTimes ++ [d] }
    | none => st
  match flushFsCache env.flushBaseCachedOk with
  | .error e => (st1, some e)
  | .ok _ =>
  if statusOk env.baseCachedRes = false then (st1, some .loadBaseCachedFailed) else
  if env.baseCachedRes.bind (·.deliveryType) ≠ some "cache" then
    (st1, some (.baseNotFromCache (env.baseCachedRes.bind (·.deliveryType))))
  else
  let st2 :=
    match env.baseCachedRes.bind (·.duration) with
    | some d => { st1 with baseCacheTimes := st1.baseCacheTimes ++ [d] }
    | none => st1
  ({ st2 with
      allResults := st2.allResults ++
        [{ iteration := i, init := env.initRes, loadBase := env.baseRes
           loadDiff := env.diffRes, loadDiffCached := env.diffCachedRes
           loadBaseCached := env.baseCachedRes }] }, none)

/-- The iteration loop `for (let i = 1; i <= ITERATIONS; i++)`: run
each iteration in order; a fatal error stops the loop (the thrown
error propagates out of the test body). -/
def runLoop : List IterEnv → Nat → RunState → RunState × Option FatalError
  | [], _, st => (st, none)
  | env :: rest, i, st =>
    match runIteration i env st with
    | (st', none) => runLoop rest (i + 1) st'
    | (st', some e) => (st', some e)

/-- A whole run over the per-iteration environments, starting from
empty accumulators with iteration counter 1. -/
def runTest (envs : List IterEnv) : RunState × Option FatalError :=
  runLoop envs 1 { allResults := [], baseCacheTimes := [], diffCacheTimes := [] }

/-! ### Concrete fixtures for the examples below -/

/-- The record decoded from `'\x7b"action":"init","status":"ok"\x7d'`:
only `action` and `status` present. -/
def initOkResult : TestResult := { action := "init", status := "ok" }

/-- Models `JSON.parse` (plus the cast to `TestResult`) on the
payloads exercised by the examples: the well-formed init/ok object
decodes; anything else (in particular `'\x7bbad json'`) throws,
i.e. `none`. -/
def decodeEx (s : String) : Option TestResult :=
  if s = "\x7b\"action\":\"init\",\"status\":\"ok\"\x7d" then some initOkResult
  else none

/-- Base outcome with a given transfer size, brotli-encoded. -/
def baseOutcome (size : Int) : TestResult :=
  { action := "load_base", status := "ok", contentEncoding := some "br"
    transferSize := some size }

/-- Diff outcome with a given transfer size and content encoding. -/
def diffOutcome (size : Int) (enc : String) : TestResult :=
  { action := "load_diff", status := "ok", contentEncoding := some enc
    transferSize := some size }

/-- Cached-load outcome: ok, served from cache, with the given
(possibly absent) duration. -/
def cachedOutcome (action : String) (dur : Option ℚ) : TestResult :=
  { action := action, status := "ok", deliveryType := some "cache"
    duration := dur }

/-- Iteration environment in which every flush succeeds and every
gate passes, with the given cached-load durations. -/
def envPassing (diffDur baseDur : Option ℚ) : IterEnv :=
  { flushInitOk := true, initRes := some initOkResult
    flushBaseOk := true, baseRes := some (baseOutcome 12000)
    flushDiffOk := true, diffRes := some (diffOutcome 6000 "dcb")
    flushDiffCachedOk := true, diffCachedRes := some (cachedOutcome "load_diff" diffDur)
    flushBaseCachedOk := true, baseCachedRes := some (cachedOutcome "load_base" baseDur) }

/-- Environment whose very first flush (iteration 1, step Init) fails. -/
def envFlushFail : IterEnv :=
  { flushInitOk := false, initRes := none
    flushBaseOk := true, baseRes := none
    flushDiffOk := true, diffRes := none
    flushDiffCachedOk := true, diffCachedRes := none
    flushBaseCachedOk := true, baseCachedRes := none }

/-- The per-iteration record appended to `allResults` when an
iteration completes. -/
def recordOf (i : Nat) (env : IterEnv) : IterationResults :=
  { iteration := i, init := env.initRes, loadBase := env.baseRes
    loadDiff := env.diffRes, loadDiffCached := env.diffCachedRes
    loadBaseCached := env.baseCachedRes }

/-- The sample contributed to a cache-time list by a cached-load
outcome: its duration when present, nothing otherwise. -/
def sampleOf (r : Option TestResult) : List ℚ :=
  (r.bind (·.duration)).toList

/-- A diff outcome served from cache: `'dcb'`-encoded, no transfer
size reported. -/
def diffCachedDcb : TestResult :=
  { action := "load_diff", status := "ok", contentEncoding := some "dcb"
    deliveryType := some "cache" }

/-- A base outcome served from cache: no transfer size reported. -/
def baseCachedNoSize : TestResult :=
  { action := "load_base", status := "ok", deliveryType := some "cache" }

/-- Environment with all flushes succeeding and the given per-step
parsed results. -/
def envWith (ir br dr dcr bcr : Option TestResult) : IterEnv :=
  { flushInitOk := true, initRes := ir
    flushBaseOk := true, baseRes := br
    flushDiffOk := true, diffRes := dr
    flushDiffCachedOk := true, diffCachedRes := dcr
    flushBaseCachedOk := true, baseCachedRes := bcr }

/-! ### Result parser -/

/-- Characterisation of the parser: it returns the first successful
decode among the sentinel-prefixed lines, in scan order. -/
theorem parseTestResult_eq_head (decode : String → Option TestResult)
    (msgs : List String) :
    parseTestResult decode msgs =
      (msgs.filterMap (fun m =>
        if resultSentinel.data.isPrefixOf m.data then
          decode (String.mk (m.data.drop resultSentinel.length))
        else none)).head? := by
  induction msgs with
  | nil => rfl
  | cons msg rest ih =>
    by_cases hp : resultSentinel.data.isPrefixOf msg.data
    · cases hd : decode (String.mk (msg.data.drop resultSentinel.length)) with
      | none =>
        simp only [parseTestResult, hp, if_true, hd, List.filterMap_cons]
        exact ih
      | some r =>
        simp only [parseTestResult, hp, if_true, hd, List.filterMap_cons,
          List.head?_cons]
    · simp only [parseTestResult, hp, Bool.false_eq_true, if_false,
        List.filterMap_cons]
      exact ih

/-- C4: the result parser scans the console lines in order and
returns the decoded record of the first sentinel-prefixed line whose
payload decodes; a line whose payload fails to decode is skipped and
scanning continues; with no (decodable) sentinel line it returns
`none` (it is a total function, so it never raises).  Concretely,
`["noise", "CDT_TEST_RESULT:\x7b…init…ok…\x7d"]` yields the init/ok
record and `["CDT_TEST_RESULT:\x7bbad json"]` yields `none`. -/
theorem C4_parse_contract :
    (∀ (decode : String → Option TestResult) (msgs : List String),
      parseTestResult decode msgs =
        (msgs.filterMap (fun m =>
          if resultSentinel.data.isPrefixOf m.data then
            decode (String.mk (m.data.drop resultSentinel.length))
          else none)).head?) ∧
    parseTestResult decodeEx
      ["noise", "CDT_TEST_RESULT:\x7b\"action\":\"init\",\"status\":\"ok\"\x7d"]
      = some initOkResult ∧
    parseTestResult decodeEx ["CDT_TEST_RESULT:\x7bbad json"] = none :=
  ⟨parseTestResult_eq_head, by decide, by decide⟩

/-! ### Stats engine: degenerate case -/

/-- C6: the stats engine on an empty sample sequence (any label)
returns the summary with empty samples and all statistics zero — the
standard deviation included, since `Real.sqrt 0 = 0` — and, being a
total function, never raises. -/
theorem C6_empty_stats (label : String) :
    calculateStats [] label =
      { resourceType := label, samples := [], mean := 0, median := 0
        min := 0, max := 0, stdDevSq := 0 } ∧
    Real.sqrt ((calculateStats [] label).stdDevSq : ℝ) = 0 := by
  constructor
  · rfl
  · simp [calculateStats]

/-! ### ValidateCDT gate -/

/-- C2: the ValidateCDT gate passes exactly when the diff outcome's
content encoding is `'dcb'` and the base transfer size is at least
twice the diff transfer size; the encoding check fires first.
Concretely: base 10000 / diff 6000 with encoding `'br'` fails on the
encoding (even though the size ratio also fails); encoding `'dcb'`
at ratio 1.5 (9000 / 6000) fails on the size; encoding `'dcb'` at
ratio exactly 2.0 (12000 / 6000) passes. -/
theorem C2_validate_gate :
    (∀ b d : TestResult,
      validateCDT (some b) (some d) = .pass ↔
        d.contentEncoding = some "dcb" ∧
        jsOrZero d.transferSize * 2 ≤ jsOrZero b.transferSize) ∧
    validateCDT (some (baseOutcome 10000)) (some (diffOutcome 6000 "br"))
      = .failEncoding (some "br") ∧
    validateCDT (some (baseOutcome 9000)) (some (diffOutcome 6000 "dcb"))
      = .failSize 9000 6000 ∧
    validateCDT (some (baseOutcome 12000)) (some (diffOutcome 6000 "dcb"))
      = .pass := by
  refine ⟨fun b d => ?_, by decide, by decide, by decide⟩
  by_cases he : d.contentEncoding = some "dcb"
  · by_cases hs : jsOrZero b.transferSize < jsOrZero d.transferSize * 2
    · simp [validateCDT, he, hs]
    · simp [validateCDT, he, hs]
      omega
  · simp [validateCDT, he]

/-- C10: an absent transfer size is coerced to `0` by `|| 0` on both
sides; hence when both transfer sizes are absent and the diff
encoding is `'dcb'`, the size check `baseSize < diffSize * 2`
compares `0 < 0` and does not fire, and the gate passes. -/
theorem C10_absent_sizes (b d : TestResult)
    (hb : b.transferSize = none) (hd : d.transferSize = none)
    (he : d.contentEncoding = some "dcb") :
    jsOrZero b.transferSize = 0 ∧ jsOrZero d.transferSize = 0 ∧
    validateCDT (some b) (some d) = .pass := by
  refine ⟨by simp [jsOrZero, hb], by simp [jsOrZero, hd], ?_⟩
  simp [validateCDT, jsOrZero, hb, hd, he]

/-- Witness for C10 at a concrete iteration outcome pair: both loads
served from cache with absent transfer sizes, diff encoded `'dcb'`. -/
theorem C10_witness :
    jsOrZero baseCachedNoSize.transferSize = 0 ∧
    jsOrZero diffCachedDcb.transferSize = 0 ∧
    validateCDT (some baseCachedNoSize) (some diffCachedDcb) = .pass :=
  C10_absent_sizes baseCachedNoSize diffCachedDcb rfl rfl rfl

/-! ### Cold-state enforcement failure -/

/-- C3: a failing filesystem cache flush raises the fatal error (with
no retry — `flushFsCache` makes a single attempt), and when it fails
during iteration 1's Init step the whole run aborts with it while
`allResults` and both sample sequences are still empty: no
`IterationRecord` is appended and no sample is collected. -/
theorem C3_flush_failure (env : IterEnv) (rest : List IterEnv)
    (h : env.flushInitOk = false) :
    flushFsCache env.flushInitOk = .error .flushFailed ∧
    runTest (env :: rest) =
      ({ allResults := [], baseCacheTimes := [], diffCacheTimes := [] },
        some .flushFailed) := by
  constructor
  · simp [flushFsCache, h]
  · simp [runTest, runLoop, runIteration, flushFsCache, h]

/-- Witness for C3: the concrete environment whose iteration-1 Init
flush fails, followed by no further iterations. -/
theorem C3_witness :
    flushFsCache envFlushFail.flushInitOk = .error .flushFailed ∧
    runTest [envFlushFail] =
      ({ allResults := [], baseCacheTimes := [], diffCacheTimes := [] },
        some .flushFailed) :=
  C3_flush_failure envFlushFail [] rfl

/-! ### Null parsed result at each step -/

/-- A `null` result never passes the status gate. -/
theorem statusOk_none : statusOk none = false := rfl

/-- C9: at each of the five session steps of an iteration, a `null`
parsed result fails that step's status gate — the optional-chained
status of `null` is not `'ok'`, so `statusOk none = false` — and the
iteration aborts with that step's fatal error (reaching the later
steps requires the earlier gates to have passed).  Absence is never
treated as a passing outcome. -/
theorem C9_null_result_aborts :
    statusOk none = false ∧
    (∀ (i : Nat) (env : IterEnv) (st : RunState),
      env.flushInitOk = true → env.initRes = none →
      runIteration i env st = (st, some .initFailed)) ∧
    (∀ (i : Nat) (env : IterEnv) (st : RunState),
      env.flushInitOk = true → statusOk env.initRes = true →
      env.flushBaseOk = true → env.baseRes = none →
      runIteration i env st = (st, some .loadBaseFailed)) ∧
    (∀ (i : Nat) (env : IterEnv) (st : RunState),
      env.flushInitOk = true → statusOk env.initRes = true →
      env.flushBaseOk = true → statusOk env.baseRes = true →
      env.flushDiffOk = true → env.diffRes = none →
      runIteration i env st = (st, some .loadDiffFailed)) ∧
    (∀ (i : Nat) (env : IterEnv) (st : RunState),
      env.flushInitOk = true → statusOk env.initRes = true →
      env.flushBaseOk = true → statusOk env.baseRes = true →
      env.flushDiffOk = true → statusOk env.diffRes = true →
      validateCDT env.baseRes env.diffRes = .pass →
      env.flushDiffCachedOk = true → env.diffCachedRes = none →
      runIteration i env st = (st, some .loadDiffCachedFailed)) ∧
    (∀ (i : Nat) (env : IterEnv) (st : RunState),
      env.flushInitOk = true → statusOk env.initRes = true →
      env.flushBaseOk = true → statusOk env.baseRes = true →
      env.flushDiffOk = true → statusOk env.diffRes = true →
      validateCDT env.baseRes env.diffRes = .pass →
      env.flushDiffCachedOk = true → statusOk env.diffCachedRes = true →
      env.diffCachedRes.bind (·.deliveryType) = some "cache" →
      env.flushBaseCachedOk = true → env.baseCachedRes = none →
      (runIteration i env st).2 = some .loadBaseCachedFailed) := by
  refine ⟨rfl, ?_, ?_, ?_, ?_, ?_⟩
  · intro i env st h1 h2
    simp [runIteration, flushFsCache, h1, h2, statusOk_none]
  · intro i env st h1 h2 h3 h4
    simp [runIteration, flushFsCache, h1, h2, h3, h4, statusOk_none]
  · intro i env st h1 h2 h3 h4 h5 h6
    simp [runIteration, flushFsCache, h1, h2, h3, h4, h5, h6, statusOk_none]
  · intro i env st h1 h2 h3 h4 h5 h6 h7 h8 h9
    simp [runIteration, flushFsCache, h1, h2, h3, h4, h5, h6, h7, h8, h9,
      statusOk_none]
  · intro i env st h1 h2 h3 h4 h5 h6 h7 h8 h9 h10 h11 h12
    simp [runIteration, flushFsCache, h1, h2, h3, h4, h5, h6, h7, h8, h9,
      h10, h11, h12, statusOk_none]

/-- Witness for C9: for each of the five steps, a concrete
environment reaching that step with a `null` parsed result, aborting
with that step's fatal error. -/
theorem C9_witness :
    statusOk none = false ∧
    runIteration 1 (envWith none none none none none) ⟨[], [], []⟩
      = (⟨[], [], []⟩, some .initFailed) ∧
    runIteration 1 (envWith (some initOkResult) none none none none)
      ⟨[], [], []⟩ = (⟨[], [], []⟩, some .loadBaseFailed) ∧
    runIteration 1 (envWith (some initOkResult) (some (baseOutcome 12000))
      none none none) ⟨[], [], []⟩ = (⟨[], [], []⟩, some .loadDiffFailed) ∧
    runIteration 1 (envWith (some initOkResult) (some (baseOutcome 12000))
      (some (diffOutcome 6000 "dcb")) none none) ⟨[], [], []⟩
      = (⟨[], [], []⟩, some .loadDiffCachedFailed) ∧
    (runIteration 1 (envWith (some initOkResult) (some (baseOutcome 12000))
      (some (diffOutcome 6000 "dcb")) (some (cachedOutcome "load_diff" (some 5)))
      none) ⟨[], [], []⟩).2 = some .loadBaseCachedFailed := by
  refine ⟨C9_null_result_aborts.1, ?_, ?_, ?_, ?_, ?_⟩
  · exact C9_null_result_aborts.2.1 1 _ _ rfl rfl
  · exact C9_null_result_aborts.2.2.1 1 _ _ rfl (by decide) rfl rfl
  · exact C9_null_result_aborts.2.2.2.1 1 _ _ rfl (by decide) rfl (by decide)
      rfl rfl
  · exact C9_null_result_aborts.2.2.2.2.1 1 _ _ rfl (by decide) rfl (by decide)
      rfl (by decide) (by decide) rfl rfl
  · exact C9_null_result_aborts.2.2.2.2.2 1 _ _ rfl (by decide) rfl (by decide)
      rfl (by decide) (by decide) rfl (by decide) (by decide) rfl rfl

/-! ### Session cleanup -/

/-- C8: on every exit path of `executeAction` — normal return or a
throw at launch, page creation, or navigation/timeout — the page and
the context closes are called exactly when the page/context were
opened, and a failing close (a rejected promise, swallowed by
`.catch(() => \x7b\x7d)`) never changes the call's outcome: the
outcome equals that of the same run with both closes succeeding, a
body error is propagated as-is, and a normal return delivers the
parsed result regardless of close failures. -/
theorem C8_cleanup (script : SessionScript) (pf cf : Bool)
    (decode : String → Option TestResult) :
    (executeAction script pf cf decode).pageCloseCalled =
      (executeAction script pf cf decode).pageOpened ∧
    (executeAction script pf cf decode).ctxCloseCalled =
      (executeAction script pf cf decode).ctxOpened ∧
    (executeAction script pf cf decode).outcome =
      (executeAction script false false decode).outcome ∧
    (executeAction .gotoFail pf cf decode).outcome = .error "goto/wait failed" ∧
    (∀ msgs, (executeAction (.ok msgs) pf cf decode).outcome =
      .ok (parseTestResult decode msgs, msgs)) := by
  cases script <;> cases pf <;> cases cf <;>
    simp [executeAction, finallyBlock, catchSwallow, closeOp]

/-! ### Sample-set lengths over a run -/

/-- A single iteration either aborts with a fatal error, or finishes
having appended exactly its iteration record and, to each cache-time
list, the corresponding cached duration when present. -/
theorem runIteration_cases (i : Nat) (env : IterEnv) (st : RunState) :
    (runIteration i env st).2.isSome = true ∨
    runIteration i env st =
      ({ allResults := st.allResults ++ [recordOf i env]
         baseCacheTimes := st.baseCacheTimes ++ sampleOf env.baseCachedRes
         diffCacheTimes := st.diffCacheTimes ++ sampleOf env.diffCachedRes },
        none) := by
  simp only [runIteration]
  repeat' split
  all_goals first
    | exact Or.inl rfl
    | (right
       rcases hdc : env.diffCachedRes with _ | rd <;>
         rcases hbc : env.baseCachedRes with _ | rb <;>
         simp_all [recordOf, sampleOf])

/-- Over a gate-clean sequence of iterations whose cached durations
are all present, the accumulators each grow by one entry per
iteration. -/
theorem runLoop_none_lengths (envs : List IterEnv) (i : Nat) (st : RunState)
    (hdur : ∀ env ∈ envs,
      (env.diffCachedRes.bind (·.duration)).isSome = true ∧
      (env.baseCachedRes.bind (·.duration)).isSome = true)
    (h : (runLoop envs i st).2 = none) :
    (runLoop envs i st).1.allResults.length
      = st.allResults.length + envs.length ∧
    (runLoop envs i st).1.baseCacheTimes.length
      = st.baseCacheTimes.length + envs.length ∧
    (runLoop envs i st).1.diffCacheTimes.length
      = st.diffCacheTimes.length + envs.length := by
  induction envs generalizing i st with
  | nil => simp [runLoop]
  | cons env rest ih =>
    rcases hcase : runIteration i env st with ⟨st', e⟩
    cases e with
    | some err =>
      simp only [runLoop, hcase] at h
      exact absurd h (Option.some_ne_none err)
    | none =>
      have hok : runIteration i env st =
          ({ allResults := st.allResults ++ [recordOf i env]
             baseCacheTimes := st.baseCacheTimes ++ sampleOf env.baseCachedRes
             diffCacheTimes := st.diffCacheTimes ++ sampleOf env.diffCachedRes },
            none) := by
        rcases runIteration_cases i env st with hab | hok
        · rw [hcase] at hab
          simp at hab
        · exact hok
      have hst' : st' =
          { allResults := st.allResults ++ [recordOf i env]
            baseCacheTimes := st.baseCacheTimes ++ sampleOf env.baseCachedRes
            diffCacheTimes := st.diffCacheTimes ++ sampleOf env.diffCachedRes } := by
        rw [hcase] at hok
        exact (Prod.ext_iff.mp hok).1
      simp only [runLoop, hcase] at h ⊢
      have hdr := hdur env (List.mem_cons_self env rest)
      obtain ⟨d1, hd1⟩ := Option.isSome_iff_exists.mp hdr.1
      obtain ⟨d2, hd2⟩ := Option.isSome_iff_exists.mp hdr.2
      have ihres := ih (i + 1) st'
        (fun e' he' => hdur e' (List.mem_cons_of_mem _ he')) h
      have e1 : st'.allResults.length = st.allResults.length + 1 := by
        rw [hst']
        simp
      have e2 : st'.baseCacheTimes.length = st.baseCacheTimes.length + 1 := by
        rw [hst']
        simp [sampleOf, hd2]
      have e3 : st'.diffCacheTimes.length = st.diffCacheTimes.length + 1 := by
        rw [hst']
        simp [sampleOf, hd1]
      refine ⟨?_, ?_, ?_⟩
      · rw [ihres.1, e1]
        simp only [List.length_cons]
        omega
      · rw [ihres.2.1, e2]
        simp only [List.length_cons]
        omega
      · rw [ihres.2.2, e3]
        simp only [List.length_cons]
        omega

/-- C1 as stated is false on the code: a one-iteration run in which
every gate passes — so it completes all configured iterations with no
gate failure — but the diff cached-load outcome reports a `null`
duration.  The run ends with one iteration record and one baseline
sample but zero dictionary-variant samples: the sample sequences do
not both have length N, and the iteration contributed a sample to one
set without contributing to the other. -/
theorem C1_counterexample :
    (runTest [envPassing none (some 5)]).2 = none ∧
    (runTest [envPassing none (some 5)]).1.allResults.length = 1 ∧
    (runTest [envPassing none (some 5)]).1.baseCacheTimes.length = 1 ∧
    (runTest [envPassing none (some 5)]).1.diffCacheTimes.length = 0 := by
  refine ⟨by decide, by decide, by decide, by decide⟩

/-- C1 (amended): every run that completes all configured iterations
without any gate failure **and in which every cached-load outcome
carries a present (non-null) duration** ends with both cache-read
sample sequences of length N (the iteration count) and N iteration
records: under the duration-presence condition no iteration
contributes a sample to one set without also contributing to the
other.  (The condition is forced: durations are appended only when
present, as the counterexample shows.) -/
theorem C1_sample_set_lengths (envs : List IterEnv)
    (hdur : ∀ env ∈ envs,
      (env.diffCachedRes.bind (·.duration)).isSome = true ∧
      (env.baseCachedRes.bind (·.duration)).isSome = true)
    (h : (runTest envs).2 = none) :
    (runTest envs).1.allResults.length = envs.length ∧
    (runTest envs).1.baseCacheTimes.length = envs.length ∧
    (runTest envs).1.diffCacheTimes.length = envs.length := by
  have hres := runLoop_none_lengths envs 1
    { allResults := [], baseCacheTimes := [], diffCacheTimes := [] } hdur h
  simpa [runTest] using hres

/-- Witness for C1 (amended): a clean run of `ITERATIONS = 2`
iterations with all durations present ends with 2 records and 2
samples in each sequence. -/
theorem C1_witness :
    (runTest [envPassing (some 3) (some 5), envPassing (some 4) (some 6)]).1.allResults.length
      = 2 ∧
    (runTest [envPassing (some 3) (some 5), envPassing (some 4) (some 6)]).1.baseCacheTimes.length
      = 2 ∧
    (runTest [envPassing (some 3) (some 5), envPassing (some 4) (some 6)]).1.diffCacheTimes.length
      = 2 :=
  C1_sample_set_lengths
    [envPassing (some 3) (some 5), envPassing (some 4) (some 6)]
    (by decide) (by decide)

/-! ### Stats engine: sorted-list helpers -/

/-- Folding `(+)` over a list from any start value. -/
theorem foldl_add_eq (l : List ℚ) (a : ℚ) : l.foldl (· + ·) a = a + l.sum := by
  induction l generalizing a with
  | nil => simp
  | cons x xs ih => simp [List.foldl_cons, ih, add_assoc]

/-- The head (default-indexed) of a sorted list bounds every member
from below. -/
theorem sorted_getD_zero_le {l : List ℚ} (hs : l.Sorted (· ≤ ·)) {x : ℚ}
    (hx : x ∈ l) : l.getD 0 0 ≤ x := by
  cases l with
  | nil => cases hx
  | cons a t =>
    rcases List.mem_cons.mp hx with rfl | hxt
    · exact le_refl x
    · exact List.rel_of_sorted_cons hs x hxt

/-- The last (default-indexed) element of a sorted list bounds every
member from above. -/
theorem sorted_le_getD_last {l : List ℚ} (hs : l.Sorted (· ≤ ·)) {x : ℚ}
    (hx : x ∈ l) : x ≤ l.getD (l.length - 1) 0 := by
  induction l with
  | nil => cases hx
  | cons a t ih =>
    cases t with
    | nil =>
      rcases List.mem_cons.mp hx with rfl | hxt
      · exact le_refl x
      · cases hxt
    | cons b u =>
      have hshift : (a :: b :: u).getD ((a :: b :: u).length - 1) 0
          = (b :: u).getD ((b :: u).length - 1) 0 := by
        simp [List.getD_cons_succ]
      rcases List.mem_cons.mp hx with rfl | hxt
      · have hmem : (b :: u).getD ((b :: u).length - 1) 0 ∈ b :: u := by
          have hlt : (b :: u).length - 1 < (b :: u).length := by simp
          rw [List.getD_eq_getElem _ 0 hlt]
          exact List.getElem_mem hlt
        rw [hshift]
        exact List.rel_of_sorted_cons hs _ hmem
      · rw [hshift]
        exact ih hs.of_cons hxt

/-- A valid default-indexed entry is a member. -/
theorem getD_mem {l : List ℚ} {i : Nat} (h : i < l.length) : l.getD i 0 ∈ l := by
  rw [List.getD_eq_getElem _ 0 h]
  exact List.getElem_mem h

/-- On a non-empty input the mean field is the arithmetic mean. -/
theorem calculateStats_mean (samples : List ℚ) (label : String)
    (h : samples ≠ []) :
    (calculateStats samples label).mean = samples.sum / (samples.length : ℚ) := by
  have hlen : ¬samples.length = 0 := by simpa using h
  simp [calculateStats, hlen, foldl_add_eq]

/-- On a non-empty input the variance field is the population
variance: squared deviations from the mean, averaged over N (not
N − 1). -/
theorem calculateStats_stdDevSq (samples : List ℚ) (label : String)
    (h : samples ≠ []) :
    (calculateStats samples label).stdDevSq =
      (samples.map (fun x => (x - samples.sum / (samples.length : ℚ)) ^ 2)).sum
        / (samples.length : ℚ) := by
  have hlen : ¬samples.length = 0 := by simpa using h
  simp [calculateStats, hlen, foldl_add_eq]

/-- On a non-empty input the min field is a least element of the
samples. -/
theorem calculateStats_min_spec (samples : List ℚ) (label : String)
    (h : samples ≠ []) :
    (calculateStats samples label).min ∈ samples ∧
    ∀ x ∈ samples, (calculateStats samples label).min ≤ x := by
  have hlen : ¬samples.length = 0 := by simpa using h
  have hs := List.sorted_insertionSort (· ≤ ·) samples
  have hpos : 0 < (samples.insertionSort (· ≤ ·)).length := by
    rw [List.length_insertionSort]
    exact List.length_pos.mpr h
  have hmin : (calculateStats samples label).min
      = (samples.insertionSort (· ≤ ·)).getD 0 0 := by
    simp [calculateStats, hlen]
  rw [hmin]
  constructor
  · simpa using getD_mem hpos
  · intro x hx
    exact sorted_getD_zero_le hs (by simpa using hx)

/-- On a non-empty input the max field is a greatest element of the
samples. -/
theorem calculateStats_max_spec (samples : List ℚ) (label : String)
    (h : samples ≠ []) :
    (calculateStats samples label).max ∈ samples ∧
    ∀ x ∈ samples, x ≤ (calculateStats samples label).max := by
  have hlen : ¬samples.length = 0 := by simpa using h
  have hs := List.sorted_insertionSort (· ≤ ·) samples
  have hpos : 0 < (samples.insertionSort (· ≤ ·)).length := by
    rw [List.length_insertionSort]
    exact List.length_pos.mpr h
  have hlt : (samples.insertionSort (· ≤ ·)).length - 1
      < (samples.insertionSort (· ≤ ·)).length := by omega
  have hmax : (calculateStats samples label).max
      = (samples.insertionSort (· ≤ ·)).getD
          ((samples.insertionSort (· ≤ ·)).length - 1) 0 := by
    simp [calculateStats, hlen]
  rw [hmax]
  constructor
  · simpa using getD_mem hlt
  · intro x hx
    exact sorted_le_getD_last hs (by simpa using hx)

/-- On a non-empty input the median field is the middle of any sorted
rearrangement of the samples (the mean of the two middle entries when
the count is even). -/
theorem calculateStats_median_spec (samples : List ℚ) (label : String)
    (h : samples ≠ []) (s : List ℚ) (hsort : s.Sorted (· ≤ ·))
    (hperm : s.Perm samples) :
    (calculateStats samples label).median =
      if s.length % 2 = 0 then
        (s.getD (s.length / 2 - 1) 0 + s.getD (s.length / 2) 0) / 2
      else s.getD (s.length / 2) 0 := by
  have hlen : ¬samples.length = 0 := by simpa using h
  have hseq : s = samples.insertionSort (· ≤ ·) :=
    List.eq_of_perm_of_sorted
      (hperm.trans (List.perm_insertionSort (· ≤ ·) samples).symm) hsort
      (List.sorted_insertionSort (· ≤ ·) samples)
  rw [hseq]
  simp [calculateStats, hlen]

/-- C7: for every non-empty sample sequence the computed summary
satisfies `min ≤ median ≤ max` and `min ≤ mean ≤ max`. -/
theorem C7_stats_order (samples : List ℚ) (label : String) (h : samples ≠ []) :
    (calculateStats samples label).min ≤ (calculateStats samples label).median ∧
    (calculateStats samples label).median ≤ (calculateStats samples label).max ∧
    (calculateStats samples label).min ≤ (calculateStats samples label).mean ∧
    (calculateStats samples label).mean ≤ (calculateStats samples label).max := by
  obtain ⟨-, hminlb⟩ := calculateStats_min_spec samples label h
  obtain ⟨-, hmaxub⟩ := calculateStats_max_spec samples label h
  have hs := List.sorted_insertionSort (· ≤ ·) samples
  have hmed := calculateStats_median_spec samples label h
    (samples.insertionSort (· ≤ ·)) hs (List.perm_insertionSort (· ≤ ·) samples)
  have hnz : (samples.insertionSort (· ≤ ·)).length ≠ 0 := by
    rw [List.length_insertionSort]
    simpa using h
  have hposlen : (0 : ℚ) < (samples.length : ℚ) := by
    exact_mod_cast List.length_pos.mpr h
  refine ⟨?_, ?_, ?_, ?_⟩
  · rw [hmed]
    by_cases hpar : (samples.insertionSort (· ≤ ·)).length % 2 = 0
    · rw [if_pos hpar]
      have h1 : (samples.insertionSort (· ≤ ·)).length / 2 - 1
          < (samples.insertionSort (· ≤ ·)).length := by omega
      have h2 : (samples.insertionSort (· ≤ ·)).length / 2
          < (samples.insertionSort (· ≤ ·)).length := by omega
      have m1 := hminlb _
        ((List.perm_insertionSort (· ≤ ·) samples).mem_iff.mp (getD_mem h1))
      have m2 := hminlb _
        ((List.perm_insertionSort (· ≤ ·) samples).mem_iff.mp (getD_mem h2))
      linarith
    · rw [if_neg hpar]
      have h2 : (samples.insertionSort (· ≤ ·)).length / 2
          < (samples.insertionSort (· ≤ ·)).length := by omega
      exact hminlb _
        ((List.perm_insertionSort (· ≤ ·) samples).mem_iff.mp (getD_mem h2))
  · rw [hmed]
    by_cases hpar : (samples.insertionSort (· ≤ ·)).length % 2 = 0
    · rw [if_pos hpar]
      have h1 : (samples.insertionSort (· ≤ ·)).length / 2 - 1
          < (samples.insertionSort (· ≤ ·)).length := by omega
      have h2 : (samples.insertionSort (· ≤ ·)).length / 2
          < (samples.insertionSort (· ≤ ·)).length := by omega
      have m1 := hmaxub _
        ((List.perm_insertionSort (· ≤ ·) samples).mem_iff.mp (getD_mem h1))
      have m2 := hmaxub _
        ((List.perm_insertionSort (· ≤ ·) samples).mem_iff.mp (getD_mem h2))
      linarith
    · rw [if_neg hpar]
      have h2 : (samples.insertionSort (· ≤ ·)).length / 2
          < (samples.insertionSort (· ≤ ·)).length := by omega
      exact hmaxub _
        ((List.perm_insertionSort (· ≤ ·) samples).mem_iff.mp (getD_mem h2))
  · rw [calculateStats_mean samples label h, le_div_iff₀ hposlen]
    have hsum := List.card_nsmul_le_sum samples _ hminlb
    rw [nsmul_eq_mul] at hsum
    linarith
  · rw [calculateStats_mean samples label h, div_le_iff₀ hposlen]
    have hsum := List.sum_le_card_nsmul samples _ hmaxub
    rw [nsmul_eq_mul] at hsum
    linarith

/-- Witness for C7 at the concrete sample sequence `[10, 20, 30]`. -/
theorem C7_witness :
    (calculateStats [10, 20, 30] "base").min
      ≤ (calculateStats [10, 20, 30] "base").median ∧
    (calculateStats [10, 20, 30] "base").median
      ≤ (calculateStats [10, 20, 30] "base").max ∧
    (calculateStats [10, 20, 30] "base").min
      ≤ (calculateStats [10, 20, 30] "base").mean ∧
    (calculateStats [10, 20, 30] "base").mean
      ≤ (calculateStats [10, 20, 30] "base").max :=
  C7_stats_order [10, 20, 30] "base" (by decide)

/-- C5: on every non-empty sample sequence the stats engine returns
the arithmetic mean, the middle of the sorted sequence as median
(mean of the two middle entries when the count is even), the least
and greatest elements as min and max, and the population variance
(squared deviations averaged over N, not N − 1) as the radicand of
the standard deviation.  On `[10, 20, 30]` it returns mean 20,
median 20, min 10, max 30 and variance 200/3, whose square root —
the reported stdDev — lies strictly between 8.164 and 8.166,
i.e. is ≈ 8.165. -/
theorem C5_stats_engine (samples : List ℚ) (label : String)
    (h : samples ≠ []) :
    (calculateStats samples label).mean = samples.sum / (samples.length : ℚ) ∧
    (calculateStats samples label).stdDevSq =
      (samples.map (fun x => (x - samples.sum / (samples.length : ℚ)) ^ 2)).sum
        / (samples.length : ℚ) ∧
    (calculateStats samples label).min ∈ samples ∧
    (∀ x ∈ samples, (calculateStats samples label).min ≤ x) ∧
    (calculateStats samples label).max ∈ samples ∧
    (∀ x ∈ samples, x ≤ (calculateStats samples label).max) ∧
    (∀ s : List ℚ, s.Sorted (· ≤ ·) → s.Perm samples →
      (calculateStats samples label).median =
        if s.length % 2 = 0 then
          (s.getD (s.length / 2 - 1) 0 + s.getD (s.length / 2) 0) / 2
        else s.getD (s.length / 2) 0) ∧
    calculateStats [10, 20, 30] "sample" =
      { resourceType := "sample", samples := [10, 20, 30], mean := 20
        median := 20, min := 10, max := 30, stdDevSq := 200 / 3 } ∧
    8.164 < Real.sqrt ((calculateStats [10, 20, 30] "sample").stdDevSq : ℝ) ∧
    Real.sqrt ((calculateStats [10, 20, 30] "sample").stdDevSq : ℝ) < 8.166 := by
  have hconc : calculateStats [10, 20, 30] "sample" =
      { resourceType := "sample", samples := [10, 20, 30], mean := 20
        median := 20, min := 10, max := 30, stdDevSq := 200 / 3 } := by
    norm_num [calculateStats, List.insertionSort, List.orderedInsert]
  have hcast : ((calculateStats [10, 20, 30] "sample").stdDevSq : ℝ)
      = 200 / 3 := by
    rw [hconc]
    norm_num
  refine ⟨calculateStats_mean samples label h,
    calculateStats_stdDevSq samples label h,
    (calculateStats_min_spec samples label h).1,
    (calculateStats_min_spec samples label h).2,
    (calculateStats_max_spec samples label h).1,
    (calculateStats_max_spec samples label h).2,
    fun s hsort hperm => calculateStats_median_spec samples label h s hsort hperm,
    hconc, ?_, ?_⟩
  · rw [hcast, show (8.164 : ℝ) = 8.164 from rfl]
    rw [Real.lt_sqrt (by norm_num)]
    norm_num
  · rw [hcast]
    rw [Real.sqrt_lt' (by norm_num)]
    norm_num

/-- Witness for C5 at the concrete sample sequence `[10, 20, 30]`:
its mean is the arithmetic mean. -/
theorem C5_witness :
    (calculateStats [10, 20, 30] "sample").mean
      = ([10, 20, 30] : List ℚ).sum / (([10, 20, 30] : List ℚ).length : ℚ) :=
  (C5_stats_engine [10, 20, 30] "sample" (by decide)).1
